import Mathlib

/-!
Verification development for `scripts/simple-ta-test.c` of the AirAccount
repository: a standalone diagnostic client that opens a TEE session, runs
four fixed trusted-application commands (hello/greeting = 0, echo = 1,
version = 2, security status = 10), counts passes, tears down the session
and context, and exits 0 exactly when all tests passed.

The TEE client API (`TEEC_*`) is external to the program; it is modelled as
an environment (`TEEEnv`) that supplies the result code of context
initialization, of session open, and, for each command code, an invocation
outcome: a result code, the bytes the secure side deposits in the caller's
256-byte output buffer, and the length scalar returned in
`op.params[2].value.a`.  Each C test function is embedded as a Lean
function from the environment to an observation record (`TestObs`)
recording the command code, the parameter-slot layout, the declared input
buffer and size (echo only), the declared output-buffer capacity, the C
return value, and the index at which the NUL terminator is written.
`main` is embedded as `main_run`, which yields the exit code, an event
trace, and the two counters.
-/

/-- The success result code `TEEC_SUCCESS` (0). -/
def TEEC_SUCCESS : Nat := 0

/-- A representative non-success result code (`TEEC_ERROR_GENERIC`). -/
def TEEC_ERROR_GENERIC : Nat := 0xFFFF0000

/-- The parameter-slot kinds the program passes to `TEEC_PARAM_TYPES`. -/
inductive ParamType
  | ptNone
  | memrefTempInput
  | memrefTempOutput
  | valueOutput
deriving DecidableEq, Repr

open ParamType

/-- Slot layout of the three output-only tests:
`TEEC_PARAM_TYPES(TEEC_NONE, TEEC_MEMREF_TEMP_OUTPUT, TEEC_VALUE_OUTPUT, TEEC_NONE)`. -/
def outParamTypes : List ParamType :=
  [ptNone, memrefTempOutput, valueOutput, ptNone]

/-- Slot layout of the echo test:
`TEEC_PARAM_TYPES(TEEC_MEMREF_TEMP_INPUT, TEEC_MEMREF_TEMP_OUTPUT, TEEC_VALUE_OUTPUT, TEEC_NONE)`. -/
def echoParamTypes : List ParamType :=
  [memrefTempInput, memrefTempOutput, valueOutput, ptNone]

/-- Outcome of one `TEEC_InvokeCommand` call, as supplied by the secure side:
the result code, the bytes written into the caller's output buffer
(slot 1), and the length scalar returned in `op.params[2].value.a`. -/
structure InvokeOutcome where
  res : Nat
  written : List Nat
  lenA : Nat
deriving DecidableEq, Repr

/-- The external TEE environment of one run: the result of
`TEEC_InitializeContext`, of `TEEC_OpenSession`, and the outcome of
invoking each command code. -/
structure TEEEnv where
  initRes : Nat
  openRes : Nat
  invokeOut : Nat → InvokeOutcome

/-- Byte at index `i` of the 256-byte zero-initialized output buffer after
the secure side wrote `written` and the program stored the terminator
`'\0'` at index `lenA` (`output_buffer[output_len] = '\0'`). -/
def bufAfter (written : List Nat) (lenA : Nat) (i : Nat) : Nat :=
  if i = lenA then 0 else written.getD i 0

/-- Read the C string starting at index `i` of buffer `buf`: bytes up to
(excluding) the first NUL, with explicit fuel. -/
def readCString (buf : Nat → Nat) : Nat → Nat → List Nat
  | 0, _ => []
  | fuel + 1, i => if buf i = 0 then [] else buf i :: readCString buf fuel (i + 1)

/-- The C string held in a byte array: its bytes up to the first NUL. -/
def cstr (l : List Nat) : List Nat := l.takeWhile (fun b => b != 0)

/-- `strlen` on a byte array: number of bytes before the first NUL. -/
def strlen (l : List Nat) : Nat := (cstr l).length

/-- The array `char input_message[] = "Test Echo Message"`: the 17
ASCII bytes of the literal followed by the terminating NUL (18 bytes). -/
def input_message : List Nat :=
  [84, 101, 115, 116, 32, 69, 99, 104, 111, 32, 77, 101, 115, 115, 97, 103, 101, 0]

/-- Observable behavior of one test function: the command code passed to
`TEEC_InvokeCommand`, the declared slot layout, the input buffer and its
declared size (echo only), the declared capacity of the output buffer
(`sizeof(output_buffer)`), the C return value, and the index at which the
NUL terminator was written into the output buffer (`none` when the call
failed and the function returned early). -/
structure TestObs where
  cmd : Nat
  paramTypes : List ParamType
  inputBuf : Option (List Nat)
  inputSize : Option Nat
  bufCapacity : Nat
  ret : Int
  termWrite : Option Nat
deriving DecidableEq, Repr

/-- Embedding of `test_hello_world`: invoke command 0 with the output-only
slot layout; on non-success return -1; on success write the terminator at
the returned length and return 0. -/
def test_hello_world (env : TEEEnv) : TestObs :=
  let o := env.invokeOut 0
  if o.res ≠ TEEC_SUCCESS then
    { cmd := 0, paramTypes := outParamTypes, inputBuf := none, inputSize := none,
      bufCapacity := 256, ret := -1, termWrite := none }
  else
    { cmd := 0, paramTypes := outParamTypes, inputBuf := none, inputSize := none,
      bufCapacity := 256, ret := 0, termWrite := some o.lenA }

/-- Embedding of `test_echo`: invoke command 1 with `input_message` as
input buffer of declared size `strlen(input_message)`; on non-success
return -1; on success write the terminator at the returned length and
return 0 exactly when `strcmp(input_message, output_buffer) == 0`, i.e.
when the C string in the output buffer equals the C string of
`input_message`. -/
def test_echo (env : TEEEnv) : TestObs :=
  let o := env.invokeOut 1
  if o.res ≠ TEEC_SUCCESS then
    { cmd := 1, paramTypes := echoParamTypes, inputBuf := some input_message,
      inputSize := some (strlen input_message),
      bufCapacity := 256, ret := -1, termWrite := none }
  else if readCString (bufAfter o.written o.lenA) 256 0 = cstr input_message then
    { cmd := 1, paramTypes := echoParamTypes, inputBuf := some input_message,
      inputSize := some (strlen input_message),
      bufCapacity := 256, ret := 0, termWrite := some o.lenA }
  else
    { cmd := 1, paramTypes := echoParamTypes, inputBuf := some input_message,
      inputSize := some (strlen input_message),
      bufCapacity := 256, ret := -1, termWrite := some o.lenA }

/-- Embedding of `test_version`: as `test_hello_world` but command 2. -/
def test_version (env : TEEEnv) : TestObs :=
  let o := env.invokeOut 2
  if o.res ≠ TEEC_SUCCESS then
    { cmd := 2, paramTypes := outParamTypes, inputBuf := none, inputSize := none,
      bufCapacity := 256, ret := -1, termWrite := none }
  else
    { cmd := 2, paramTypes := outParamTypes, inputBuf := none, inputSize := none,
      bufCapacity := 256, ret := 0, termWrite := some o.lenA }

/-- Embedding of `test_security_check`: as `test_hello_world` but command 10. -/
def test_security_check (env : TEEEnv) : TestObs :=
  let o := env.invokeOut 10
  if o.res ≠ TEEC_SUCCESS then
    { cmd := 10, paramTypes := outParamTypes, inputBuf := none, inputSize := none,
      bufCapacity := 256, ret := -1, termWrite := none }
  else
    { cmd := 10, paramTypes := outParamTypes, inputBuf := none, inputSize := none,
      bufCapacity := 256, ret := 0, termWrite := some o.lenA }

/-- The four tests, in the order `main` runs them. -/
def tests : List (TEEEnv → TestObs) :=
  [test_hello_world, test_echo, test_version, test_security_check]

/-- Events observable at the process boundary of one run. -/
inductive Event
  | initCtx
  | openSess
  | invokeCmd (cmd : Nat)
  | closeSess
  | finalizeCtx
  | errxMsg
deriving DecidableEq, Repr

/-- `true` exactly on invocation events. -/
def isInvoke : Event → Bool
  | Event.invokeCmd _ => true
  | _ => false

/-- Pass-count increment contributed by the first test
(`if (test_hello_world(&session) == 0) passed_count++`). -/
def inc1 (env : TEEEnv) : Nat := if (test_hello_world env).ret = 0 then 1 else 0

/-- Pass-count increment contributed by the second test. -/
def inc2 (env : TEEEnv) : Nat := if (test_echo env).ret = 0 then 1 else 0

/-- Pass-count increment contributed by the third test. -/
def inc3 (env : TEEEnv) : Nat := if (test_version env).ret = 0 then 1 else 0

/-- Pass-count increment contributed by the fourth test. -/
def inc4 (env : TEEEnv) : Nat := if (test_security_check env).ret = 0 then 1 else 0

/-- `passed_count` after the first test. -/
def passed1 (env : TEEEnv) : Nat := inc1 env

/-- `passed_count` after the second test. -/
def passed2 (env : TEEEnv) : Nat := passed1 env + inc2 env

/-- `passed_count` after the third test. -/
def passed3 (env : TEEEnv) : Nat := passed2 env + inc3 env

/-- `passed_count` after the fourth test. -/
def passed4 (env : TEEEnv) : Nat := passed3 env + inc4 env

/-- The successive values of `(test_count, passed_count)` during the test
phase: the initial state, then after each `test_count++` and after each
conditional `passed_count++`, in program order. -/
def counterStates (env : TEEEnv) : List (Nat × Nat) :=
  [(0, 0),
   (1, 0), (1, passed1 env),
   (2, passed1 env), (2, passed2 env),
   (3, passed2 env), (3, passed3 env),
   (4, passed3 env), (4, passed4 env)]

/-- The event trace of a run that reaches the test phase: context init,
session open, the four invocations each test performs (in list order),
then session close and context finalize. -/
def mainTrace (env : TEEEnv) : List Event :=
  [Event.initCtx, Event.openSess]
    ++ tests.map (fun t => Event.invokeCmd (t env).cmd)
    ++ [Event.closeSess, Event.finalizeCtx]

/-- Result of one process run. -/
structure RunResult where
  exitCode : Nat
  trace : List Event
  test_count : Nat
  passed_count : Nat
deriving DecidableEq, Repr

/-- Embedding of `main`: `errx(1, ...)` aborts with exit status 1 when
context initialization or session open returns non-success; otherwise the
four tests run, the counters evolve as in `counterStates`, cleanup runs,
and the exit status is `(passed_count == test_count) ? 0 : 1`. -/
def main_run (env : TEEEnv) : RunResult :=
  if env.initRes ≠ TEEC_SUCCESS then
    { exitCode := 1, trace := [Event.initCtx, Event.errxMsg],
      test_count := 0, passed_count := 0 }
  else if env.openRes ≠ TEEC_SUCCESS then
    { exitCode := 1, trace := [Event.initCtx, Event.openSess, Event.errxMsg],
      test_count := 0, passed_count := 0 }
  else
    let fin := (counterStates env).getLastD (0, 0)
    { exitCode := if fin.2 = fin.1 then 0 else 1,
      trace := mainTrace env,
      test_count := fin.1, passed_count := fin.2 }

/-- Environment in which every invocation succeeds and the echo command
returns exactly the input bytes with length 17. -/
def envAllPass : TEEEnv :=
  { initRes := TEEC_SUCCESS, openRes := TEEC_SUCCESS,
    invokeOut := fun cmd =>
      if cmd = 1 then { res := TEEC_SUCCESS, written := cstr input_message, lenA := 17 }
      else { res := TEEC_SUCCESS, written := [79, 75], lenA := 2 } }

/-- Environment in which setup succeeds but every invocation fails. -/
def envAllFail : TEEEnv :=
  { initRes := TEEC_SUCCESS, openRes := TEEC_SUCCESS,
    invokeOut := fun _ => { res := TEEC_ERROR_GENERIC, written := [], lenA := 0 } }

/-- Environment in which context initialization fails. -/
def envInitFail : TEEEnv :=
  { initRes := TEEC_ERROR_GENERIC, openRes := TEEC_SUCCESS,
    invokeOut := fun _ => { res := TEEC_SUCCESS, written := [], lenA := 0 } }

/-- Environment in which every invocation succeeds but reports the
out-of-bounds length 300 in the output scalar. -/
def envOverflow : TEEEnv :=
  { initRes := TEEC_SUCCESS, openRes := TEEC_SUCCESS,
    invokeOut := fun _ => { res := TEEC_SUCCESS, written := [], lenA := 300 } }

/-- Boolean form of the counter invariant `passed_count <= test_count`. -/
def passedLE (s : Nat × Nat) : Bool := decide (s.2 ≤ s.1)

/-- Componentwise order on counter states: neither counter decreases. -/
def monoPair (a b : Nat × Nat) : Prop := a.1 ≤ b.1 ∧ a.2 ≤ b.2

instance : DecidableRel monoPair :=
  fun a b => inferInstanceAs (Decidable (a.1 ≤ b.1 ∧ a.2 ≤ b.2))

/-- The common procedure of the three output-only tests, parametrized by
the command code, consuming only the outcome of its own invocation.
Modelled from the claim that greeting, version and security-status are the
same procedure differing only in the command code. -/
def outputOnlyTest (cmd : Nat) (o : InvokeOutcome) : TestObs :=
  if o.res ≠ TEEC_SUCCESS then
    { cmd := cmd, paramTypes := outParamTypes, inputBuf := none, inputSize := none,
      bufCapacity := 256, ret := -1, termWrite := none }
  else
    { cmd := cmd, paramTypes := outParamTypes, inputBuf := none, inputSize := none,
      bufCapacity := 256, ret := 0, termWrite := some o.lenA }

theorem test_hello_world_cmd (env : TEEEnv) : (test_hello_world env).cmd = 0 := by
  simp only [test_hello_world]
  split <;> rfl

theorem test_echo_cmd (env : TEEEnv) : (test_echo env).cmd = 1 := by
  simp only [test_echo]
  split
  · rfl
  split <;> rfl

theorem test_version_cmd (env : TEEEnv) : (test_version env).cmd = 2 := by
  simp only [test_version]
  split <;> rfl

theorem test_security_check_cmd (env : TEEEnv) : (test_security_check env).cmd = 10 := by
  simp only [test_security_check]
  split <;> rfl

theorem mainTrace_eq (env : TEEEnv) :
    mainTrace env =
      [Event.initCtx, Event.openSess, Event.invokeCmd 0, Event.invokeCmd 1,
       Event.invokeCmd 2, Event.invokeCmd 10, Event.closeSess, Event.finalizeCtx] := by
  simp [mainTrace, tests, test_hello_world_cmd, test_echo_cmd, test_version_cmd,
    test_security_check_cmd]

theorem main_run_eq_run (env : TEEEnv) (h1 : env.initRes = TEEC_SUCCESS)
    (h2 : env.openRes = TEEC_SUCCESS) :
    main_run env =
      { exitCode := if passed4 env = 4 then 0 else 1,
        trace := mainTrace env, test_count := 4, passed_count := passed4 env } := by
  unfold main_run
  rw [if_neg (by simp [h1]), if_neg (by simp [h2])]
  rfl

theorem inc1_le (env : TEEEnv) : inc1 env ≤ 1 := by
  unfold inc1; split <;> omega

theorem inc2_le (env : TEEEnv) : inc2 env ≤ 1 := by
  unfold inc2; split <;> omega

theorem inc3_le (env : TEEEnv) : inc3 env ≤ 1 := by
  unfold inc3; split <;> omega

theorem inc4_le (env : TEEEnv) : inc4 env ≤ 1 := by
  unfold inc4; split <;> omega

/-- Claim C1: in every run that completes the test sequence, the process
exit status is 0 if and only if `passed_count` equals `test_count`, and is
1 otherwise. -/
theorem exit_code_iff_all_passed (env : TEEEnv)
    (h1 : env.initRes = TEEC_SUCCESS) (h2 : env.openRes = TEEC_SUCCESS) :
    ((main_run env).exitCode = 0 ↔
      (main_run env).passed_count = (main_run env).test_count) ∧
    ((main_run env).exitCode = 0 ∨ (main_run env).exitCode = 1) := by
  rw [main_run_eq_run env h1 h2]
  by_cases h : passed4 env = 4 <;> simp [h]

/-- Witness for C1: a concrete all-passing run exits 0. -/
theorem exit_code_iff_all_passed_witness :
    ((main_run envAllPass).exitCode = 0 ↔
      (main_run envAllPass).passed_count = (main_run envAllPass).test_count) ∧
    ((main_run envAllPass).exitCode = 0 ∨ (main_run envAllPass).exitCode = 1) :=
  exit_code_iff_all_passed envAllPass rfl rfl

/-- Claim C2: the echo test passes (returns 0) if and only if the
invocation of command 1 returns `TEEC_SUCCESS` and the NUL-terminated
string in the output buffer equals, byte for byte, the input string
"Test Echo Message"; a successful result code with a mismatching payload
counts as failed. -/
theorem test_echo_pass_iff (env : TEEEnv) :
    (test_echo env).ret = 0 ↔
      (env.invokeOut 1).res = TEEC_SUCCESS ∧
      readCString (bufAfter (env.invokeOut 1).written (env.invokeOut 1).lenA) 256 0
        = cstr input_message := by
  by_cases h : (env.invokeOut 1).res = TEEC_SUCCESS
  · by_cases hc : readCString (bufAfter (env.invokeOut 1).written (env.invokeOut 1).lenA) 256 0
        = cstr input_message
    · simp [test_echo, h, hc]
    · simp [test_echo, h, hc]
  · simp [test_echo, h]

/-- Claim C3: whenever a test's invocation returns a non-success result
code, that test returns -1 and contributes 0 to the pass count. -/
theorem nonsuccess_never_passes (env : TEEEnv) (t : TEEEnv → TestObs)
    (ht : t ∈ tests) (h : (env.invokeOut (t env).cmd).res ≠ TEEC_SUCCESS) :
    (t env).ret = -1 ∧ (if (t env).ret = 0 then 1 else 0) = 0 := by
  have hr : (t env).ret = -1 := by
    simp only [tests, List.mem_cons, List.not_mem_nil, or_false] at ht
    rcases ht with rfl | rfl | rfl | rfl
    · rw [test_hello_world_cmd] at h
      simp [test_hello_world, h]
    · rw [test_echo_cmd] at h
      simp [test_echo, h]
    · rw [test_version_cmd] at h
      simp [test_version, h]
    · rw [test_security_check_cmd] at h
      simp [test_security_check, h]
  refine ⟨hr, by rw [hr]; decide⟩

/-- Witness for C3: in the environment where every invocation fails, the
first test returns -1 and contributes nothing. -/
theorem nonsuccess_never_passes_witness :
    (test_hello_world envAllFail).ret = -1 ∧
    (if (test_hello_world envAllFail).ret = 0 then 1 else 0) = 0 :=
  nonsuccess_never_passes envAllFail test_hello_world (by simp [tests]) (by decide)

/-- Claim C4: in every run that reaches the test phase, the four tests
execute unconditionally in the fixed order of commands 0, 1, 2, 10,
between setup and cleanup, independent of any test's outcome. -/
theorem tests_fixed_order (env : TEEEnv)
    (h1 : env.initRes = TEEC_SUCCESS) (h2 : env.openRes = TEEC_SUCCESS) :
    (main_run env).trace =
      [Event.initCtx, Event.openSess, Event.invokeCmd 0, Event.invokeCmd 1,
       Event.invokeCmd 2, Event.invokeCmd 10, Event.closeSess, Event.finalizeCtx] := by
  rw [main_run_eq_run env h1 h2]
  exact mainTrace_eq env

/-- Witness for C4: even when every test fails, the same four invocations
happen in the same order. -/
theorem tests_fixed_order_witness :
    (main_run envAllFail).trace =
      [Event.initCtx, Event.openSess, Event.invokeCmd 0, Event.invokeCmd 1,
       Event.invokeCmd 2, Event.invokeCmd 10, Event.closeSess, Event.finalizeCtx] :=
  tests_fixed_order envAllFail rfl rfl

/-- Claim C5: if context initialization or session open returns a
non-success code, the process prints a diagnostic (`errx`) and exits with
status 1 before any test invocation occurs. -/
theorem fatal_setup_aborts (env : TEEEnv)
    (h : env.initRes ≠ TEEC_SUCCESS ∨ env.openRes ≠ TEEC_SUCCESS) :
    (main_run env).exitCode = 1 ∧ Event.errxMsg ∈ (main_run env).trace ∧
    (main_run env).trace.countP isInvoke = 0 := by
  rcases h with h | h
  · have e : main_run env =
        { exitCode := 1, trace := [Event.initCtx, Event.errxMsg],
          test_count := 0, passed_count := 0 } := by
      unfold main_run
      rw [if_pos h]
    rw [e]; decide
  · by_cases h1 : env.initRes = TEEC_SUCCESS
    · have e : main_run env =
          { exitCode := 1, trace := [Event.initCtx, Event.openSess, Event.errxMsg],
            test_count := 0, passed_count := 0 } := by
        unfold main_run
        rw [if_neg (by simp [h1]), if_pos h]
      rw [e]; decide
    · have e : main_run env =
          { exitCode := 1, trace := [Event.initCtx, Event.errxMsg],
            test_count := 0, passed_count := 0 } := by
        unfold main_run
        rw [if_pos h1]
      rw [e]; decide

/-- Witness for C5: a run whose context initialization fails exits 1 with
the diagnostic and no invocation. -/
theorem fatal_setup_aborts_witness :
    (main_run envInitFail).exitCode = 1 ∧ Event.errxMsg ∈ (main_run envInitFail).trace ∧
    (main_run envInitFail).trace.countP isInvoke = 0 :=
  fatal_setup_aborts envInitFail (Or.inl (by decide))

/-- Claim C6: in every test, on a successful invocation the length value
returned in the output scalar slot is used directly, without any bounds
check, as the index of the NUL-terminator write into the output buffer,
whose declared capacity is 256 bytes. -/
theorem term_write_trusts_length (env : TEEEnv) (t : TEEEnv → TestObs)
    (ht : t ∈ tests) (h : (env.invokeOut (t env).cmd).res = TEEC_SUCCESS) :
    (t env).termWrite = some (env.invokeOut (t env).cmd).lenA ∧
    (t env).bufCapacity = 256 := by
  simp only [tests, List.mem_cons, List.not_mem_nil, or_false] at ht
  rcases ht with rfl | rfl | rfl | rfl
  · rw [test_hello_world_cmd] at h ⊢
    simp only [test_hello_world]
    rw [if_neg (by simp [h])]
    exact ⟨rfl, rfl⟩
  · rw [test_echo_cmd] at h ⊢
    simp only [test_echo]
    rw [if_neg (by simp [h])]
    constructor
    · split <;> rfl
    · split <;> rfl
  · rw [test_version_cmd] at h ⊢
    simp only [test_version]
    rw [if_neg (by simp [h])]
    exact ⟨rfl, rfl⟩
  · rw [test_security_check_cmd] at h ⊢
    simp only [test_security_check]
    rw [if_neg (by simp [h])]
    exact ⟨rfl, rfl⟩

/-- Witness for C6: a secure side reporting length 300 makes the program
write the terminator at index 300, beyond the 256-byte buffer. -/
theorem term_write_trusts_length_witness :
    (test_hello_world envOverflow).termWrite = some 300 ∧
    (test_hello_world envOverflow).bufCapacity = 256 ∧ 256 ≤ 300 := by
  have h := term_write_trusts_length envOverflow test_hello_world (by simp [tests]) (by decide)
  exact ⟨h.1.trans (by decide), h.2, by decide⟩

/-- Claim C7: in every run that completes the test sequence, `test_count`
ends at exactly 4, `passed_count <= test_count` holds at every counter
state of the run, and both counters evolve monotonically. -/
theorem counters_monotone_invariant (env : TEEEnv)
    (h1 : env.initRes = TEEC_SUCCESS) (h2 : env.openRes = TEEC_SUCCESS) :
    (main_run env).test_count = 4 ∧
    (main_run env).passed_count = passed4 env ∧
    ((counterStates env).all passedLE) = true ∧
    List.Chain' monoPair (counterStates env) := by
  have b1 := inc1_le env
  have b2 := inc2_le env
  have b3 := inc3_le env
  have b4 := inc4_le env
  have e1 : passed1 env = inc1 env := rfl
  have e2 : passed2 env = passed1 env + inc2 env := rfl
  have e3 : passed3 env = passed2 env + inc3 env := rfl
  have e4 : passed4 env = passed3 env + inc4 env := rfl
  refine ⟨?_, ?_, ?_, ?_⟩
  · rw [main_run_eq_run env h1 h2]
  · rw [main_run_eq_run env h1 h2]
  · simp only [counterStates, List.all_cons, List.all_nil, Bool.and_true, Bool.and_eq_true,
      passedLE, decide_eq_true_eq]
    omega
  · simp only [counterStates, List.chain'_cons, List.chain'_singleton, monoPair, and_true]
    omega

/-- Witness for C7: the counter invariants at a concrete all-passing run. -/
theorem counters_monotone_invariant_witness :
    (main_run envAllPass).test_count = 4 ∧
    (main_run envAllPass).passed_count = passed4 envAllPass ∧
    ((counterStates envAllPass).all passedLE) = true ∧
    List.Chain' monoPair (counterStates envAllPass) :=
  counters_monotone_invariant envAllPass rfl rfl

/-- Claim C8: every run that completes the test sequence closes the
session and finalizes the context exactly once each, in that order, as
the last two events, after all four invocations. -/
theorem cleanup_exactly_once (env : TEEEnv)
    (h1 : env.initRes = TEEC_SUCCESS) (h2 : env.openRes = TEEC_SUCCESS) :
    (main_run env).trace.count Event.closeSess = 1 ∧
    (main_run env).trace.count Event.finalizeCtx = 1 ∧
    (main_run env).trace.getLast? = some Event.finalizeCtx ∧
    (main_run env).trace.dropLast.getLast? = some Event.closeSess ∧
    (main_run env).trace.countP isInvoke = 4 ∧
    (main_run env).trace.dropLast.dropLast.countP isInvoke = 4 := by
  rw [main_run_eq_run env h1 h2]
  have e := mainTrace_eq env
  simp only [e]
  decide

/-- Witness for C8: cleanup happens exactly once even when every test
fails. -/
theorem cleanup_exactly_once_witness :
    (main_run envAllFail).trace.count Event.closeSess = 1 ∧
    (main_run envAllFail).trace.count Event.finalizeCtx = 1 ∧
    (main_run envAllFail).trace.getLast? = some Event.finalizeCtx ∧
    (main_run envAllFail).trace.dropLast.getLast? = some Event.closeSess ∧
    (main_run envAllFail).trace.countP isInvoke = 4 ∧
    (main_run envAllFail).trace.dropLast.dropLast.countP isInvoke = 4 :=
  cleanup_exactly_once envAllFail rfl rfl

theorem test_echo_inputBuf (env : TEEEnv) :
    (test_echo env).inputBuf = some input_message := by
  simp only [test_echo]
  split
  · rfl
  split <;> rfl

theorem test_echo_inputSize (env : TEEEnv) :
    (test_echo env).inputSize = some (strlen input_message) := by
  simp only [test_echo]
  split
  · rfl
  split <;> rfl

/-- Counterexample to claim C9: the declared input size of the echo test
is `strlen("Test Echo Message") = 17`, not 18, as evaluated on a concrete
run. -/
theorem echo_input_size_not_18 :
    (test_echo envAllPass).inputSize = some 17 ∧
    (test_echo envAllPass).inputSize ≠ some 18 := by
  decide

/-- Claim C9 as amended: the echo test supplies the literal string
"Test Echo Message" as the input buffer of the invocation, with a
declared input size of `strlen(input_message) = 17` bytes (the NUL
terminator is not counted). -/
theorem echo_input_literal_and_size (env : TEEEnv) :
    (test_echo env).inputBuf = some input_message ∧
    (test_echo env).inputSize = some (strlen input_message) ∧
    strlen input_message = 17 :=
  ⟨test_echo_inputBuf env, test_echo_inputSize env, by decide⟩

/-- Claim C10: the greeting, version, and security-status tests are the
same output-only procedure differing only in the command code (0, 2, 10),
each consuming only the outcome of its own invocation; hence identical
outcomes yield identical pass/fail results, slot layouts, buffer
capacities, terminator writes, and return values. -/
theorem output_tests_differ_only_in_cmd (env : TEEEnv) :
    test_hello_world env = outputOnlyTest 0 (env.invokeOut 0) ∧
    test_version env = outputOnlyTest 2 (env.invokeOut 2) ∧
    test_security_check env = outputOnlyTest 10 (env.invokeOut 10) :=
  ⟨rfl, rfl, rfl⟩
